import Mathlib

/-!
Shallow embedding of `src/modules/package/nuke/database/redshift.py`
(class `NukeRedshift`), the module that enumerates and deletes aged
redshift resources: clusters, snapshots, subnet groups and parameter
groups.

The AWS service is modelled by `RedshiftWorld`: the paginated listing
endpoints return their full page lists (or a `ClientError` when the
pagination itself fails), the tag endpoint and the four delete endpoints
are functions from the resource identifier to an `Except` result.
Timestamps are modelled as integers; only their ordering against the
threshold is ever consulted by the code.

Side effects are made observable as values: each nuke method returns the
trace of delete attempts it performed (an `Event` records the identifier
and whether the delete call succeeded), and the tag-endpoint calls made
while iterating `list_clusters` are collected by
`list_clusters_tag_calls`.
-/

namespace NukeRedshift

/-- `botocore.exceptions.ClientError`, reduced to its message. -/
abbrev ClientError := String

/-- One entry of `tags["TaggedResources"]`: a `Key`/`Value` pair. -/
structure Tag where
  key : String
  value : String
deriving DecidableEq, Repr

/-- The fields of a cluster dictionary that the code reads:
`ClusterIdentifier` and `ClusterCreateTime` (as a timestamp). -/
structure Cluster where
  clusterIdentifier : String
  clusterCreateTime : Int
deriving DecidableEq, Repr

/-- The fields of a snapshot dictionary that the code reads:
`SnapshotIdentifier` and `SnapshotCreateTime` (as a timestamp). -/
structure Snapshot where
  snapshotIdentifier : String
  snapshotCreateTime : Int
deriving DecidableEq, Repr

/-- The field of a subnet-group dictionary that the code reads:
`ClusterSubnetGroupName`. -/
structure SubnetGroup where
  clusterSubnetGroupName : String
deriving DecidableEq, Repr

/-- The field of a parameter-group dictionary that the code reads:
`ParameterGroupName`. -/
structure ParameterGroup where
  parameterGroupName : String
deriving DecidableEq, Repr

/-- The `required_tags` argument: `none` models Python `None`, `some l`
models a dict with entries `l` in insertion order. -/
abbrev RequiredTags := Option (List (String × String))

/-- Python truthiness of the `required_tags` dict: `None` and the empty
dict are falsy, a non-empty dict is truthy. -/
def requiredTagsTruthy : RequiredTags → Bool
  | none => false
  | some l => !l.isEmpty

/-- The remote service as seen through the boto3 client: the four
paginated listings (the whole page sequence, or the `ClientError` the
pagination raises), `list_tags_for_resource`, and the four delete
endpoints. -/
structure RedshiftWorld where
  describeClusters : Except ClientError (List (List Cluster))
  describeClusterSnapshots : Except ClientError (List (List Snapshot))
  describeClusterSubnetGroups : Except ClientError (List (List SubnetGroup))
  describeClusterParameterGroups : Except ClientError (List (List ParameterGroup))
  listTagsForResource : String → Except ClientError (List Tag)
  deleteCluster : String → Except ClientError Unit
  deleteClusterSnapshot : String → Except ClientError Unit
  deleteClusterSubnetGroup : String → Except ClientError Unit
  deleteClusterParameterGroup : String → Except ClientError Unit

/-- One delete attempt observed in a nuke loop: the identifier passed to
the delete endpoint and whether the call succeeded (`false` means the
endpoint raised `ClientError`, which the loop catches). -/
inductive Event where
  | deleteCluster (id : String) (ok : Bool)
  | deleteSnapshot (id : String) (ok : Bool)
  | deleteSubnet (name : String) (ok : Bool)
  | deleteParam (name : String) (ok : Bool)
deriving DecidableEq, Repr

/-- The dict comprehension
`{tag["Key"]: tag["Value"] for tag in tags["TaggedResources"]}` as a
lookup function; a later entry for the same key overwrites an earlier
one, and `.get` on an absent key is `none`. -/
def tagDict (tags : List Tag) : String → Option String :=
  tags.foldl (fun d t => fun k => if k = t.key then some t.value else d k)
    (fun _ => none)

/-- `NukeRedshift._cluster_has_required_tags` (redshift.py lines
192-212): fetch the cluster's tags by `ClusterIdentifier`; `True` iff
every required key is present with the required value
(`tag_dict.get(key) != value` fails on a missing or mismatched key); a
`ClientError` from the tag fetch is caught and yields `False`. -/
def cluster_has_required_tags (w : RedshiftWorld) (cluster : Cluster)
    (required_tags : List (String × String)) : Bool :=
  match w.listTagsForResource cluster.clusterIdentifier with
  | Except.ok tags =>
      required_tags.all fun kv => tagDict tags kv.1 == some kv.2
  | Except.error _ => false

/-- The body of the `list_clusters` loop for one cluster dictionary
(redshift.py lines 143-147):
first component, the `list_tags_for_resource` calls this iteration makes
(`_cluster_has_required_tags` calls it exactly once, and is invoked
exactly when the timestamp test passed and `required_tags` is truthy,
because `and` short-circuits); second component, the yielded identifier,
if any: the iteration yields unless the cluster is skipped by
`if required_tags and not self._cluster_has_required_tags(...): continue`. -/
def process_cluster (w : RedshiftWorld) (time_delete : Int)
    (required_tags : RequiredTags) (cluster : Cluster) :
    List String × Option String :=
  if cluster.clusterCreateTime < time_delete then
    if requiredTagsTruthy required_tags then
      if ! cluster_has_required_tags w cluster (required_tags.getD []) then
        ([cluster.clusterIdentifier], none)
      else
        ([cluster.clusterIdentifier], some cluster.clusterIdentifier)
    else ([], some cluster.clusterIdentifier)
  else ([], none)

/-- `NukeRedshift.list_clusters` (redshift.py lines 126-147): iterate the
`describe_clusters` paginator page by page, cluster by cluster, and
collect the yielded identifiers; an error from the pagination itself
propagates. -/
def list_clusters (w : RedshiftWorld) (time_delete : Int)
    (required_tags : RequiredTags) : Except ClientError (List String) :=
  match w.describeClusters with
  | Except.error e => Except.error e
  | Except.ok pages =>
      Except.ok (pages.flatten.filterMap
        fun cluster => (process_cluster w time_delete required_tags cluster).2)

/-- The `list_tags_for_resource` calls made while the `list_clusters`
generator is driven to exhaustion, in order. -/
def list_clusters_tag_calls (w : RedshiftWorld) (time_delete : Int)
    (required_tags : RequiredTags) : List String :=
  match w.describeClusters with
  | Except.error _ => []
  | Except.ok pages =>
      pages.flatten.flatMap
        fun cluster => (process_cluster w time_delete required_tags cluster).1

/-- `NukeRedshift.list_snapshots` (redshift.py lines 149-166): yield
`SnapshotIdentifier` for every snapshot whose `SnapshotCreateTime` is
strictly below `time_delete`. -/
def list_snapshots (w : RedshiftWorld) (time_delete : Int) :
    Except ClientError (List String) :=
  match w.describeClusterSnapshots with
  | Except.error e => Except.error e
  | Except.ok pages =>
      Except.ok (pages.flatten.filterMap fun snapshot =>
        if snapshot.snapshotCreateTime < time_delete then
          some snapshot.snapshotIdentifier
        else none)

/-- `NukeRedshift.list_subnet` (redshift.py lines 168-178): yield every
`ClusterSubnetGroupName`, unconditionally. -/
def list_subnet (w : RedshiftWorld) : Except ClientError (List String) :=
  match w.describeClusterSubnetGroups with
  | Except.error e => Except.error e
  | Except.ok pages =>
      Except.ok (pages.flatten.map fun subnet => subnet.clusterSubnetGroupName)

/-- `NukeRedshift.list_cluster_params` (redshift.py lines 180-190): yield
every `ParameterGroupName`, unconditionally. -/
def list_cluster_params (w : RedshiftWorld) : Except ClientError (List String) :=
  match w.describeClusterParameterGroups with
  | Except.error e => Except.error e
  | Except.ok pages =>
      Except.ok (pages.flatten.map fun param => param.parameterGroupName)

/-- The observed outcome of one guarded delete call:
`try: delete(x) except ClientError: nuke_exceptions(...)`. -/
def delete_event (res : Except ClientError Unit) (mk : Bool → Event) : Event :=
  match res with
  | Except.ok _ => mk true
  | Except.error _ => mk false

/-- The per-item delete loop shared by the four nuke methods: each
iteration attempts the delete call for one identifier and catches
`ClientError`, so the loop always continues to the next identifier. -/
def delete_loop (del : String → Except ClientError Unit)
    (mk : String → Bool → Event) : List String → List Event
  | [] => []
  | x :: rest => delete_event (del x) (mk x) :: delete_loop del mk rest

/-- `NukeRedshift.nuke_clusters` (redshift.py lines 48-67): delete each
cluster produced by `list_clusters`, per-item `ClientError` caught; a
listing error propagates. -/
def nuke_clusters (w : RedshiftWorld) (time_delete : Int)
    (required_tags : RequiredTags) : Except ClientError (List Event) :=
  match list_clusters w time_delete required_tags with
  | Except.error e => Except.error e
  | Except.ok ids => Except.ok (delete_loop w.deleteCluster Event.deleteCluster ids)

/-- `NukeRedshift.nuke_snapshots` (redshift.py lines 69-86). -/
def nuke_snapshots (w : RedshiftWorld) (time_delete : Int) :
    Except ClientError (List Event) :=
  match list_snapshots w time_delete with
  | Except.error e => Except.error e
  | Except.ok ids =>
      Except.ok (delete_loop w.deleteClusterSnapshot Event.deleteSnapshot ids)

/-- `NukeRedshift.nuke_subnets` (redshift.py lines 88-105). -/
def nuke_subnets (w : RedshiftWorld) : Except ClientError (List Event) :=
  match list_subnet w with
  | Except.error e => Except.error e
  | Except.ok ids =>
      Except.ok (delete_loop w.deleteClusterSubnetGroup Event.deleteSubnet ids)

/-- `NukeRedshift.nuke_param_groups` (redshift.py lines 107-124). -/
def nuke_param_groups (w : RedshiftWorld) : Except ClientError (List Event) :=
  match list_cluster_params w with
  | Except.error e => Except.error e
  | Except.ok ids =>
      Except.ok (delete_loop w.deleteClusterParameterGroup Event.deleteParam ids)

/-- `NukeRedshift.nuke` (redshift.py lines 26-46): run the four handlers
in order clusters, snapshots, subnets, parameter groups. Returns the
concatenated trace of delete attempts, and the exception that escaped
`nuke`, if any (the handlers catch per-item errors, so only a listing
error can escape, which aborts everything after it). -/
def nuke (w : RedshiftWorld) (older_than_seconds : Int)
    (required_tags : RequiredTags) : List Event × Option ClientError :=
  match nuke_clusters w older_than_seconds required_tags with
  | Except.error e => ([], some e)
  | Except.ok t1 =>
    match nuke_snapshots w older_than_seconds with
    | Except.error e => (t1, some e)
    | Except.ok t2 =>
      match nuke_subnets w with
      | Except.error e => (t1 ++ t2, some e)
      | Except.ok t3 =>
        match nuke_param_groups w with
        | Except.error e => (t1 ++ t2 ++ t3, some e)
        | Except.ok t4 => (t1 ++ t2 ++ t3 ++ t4, none)

/-- Classifies an `Event` as a cluster delete attempt. -/
def isClusterEvent : Event → Bool
  | Event.deleteCluster _ _ => true
  | _ => false

/-- Classifies an `Event` as a snapshot delete attempt. -/
def isSnapshotEvent : Event → Bool
  | Event.deleteSnapshot _ _ => true
  | _ => false

/-- Classifies an `Event` as a subnet-group delete attempt. -/
def isSubnetEvent : Event → Bool
  | Event.deleteSubnet _ _ => true
  | _ => false

/-- Classifies an `Event` as a parameter-group delete attempt. -/
def isParamEvent : Event → Bool
  | Event.deleteParam _ _ => true
  | _ => false

/-- Classifies an `Event` as a subnet-group or parameter-group delete
attempt. -/
def isSubnetOrParamEvent (e : Event) : Bool :=
  isSubnetEvent e || isParamEvent e

/-! Helper lemmas about the embedded operations. -/

lemma delete_loop_eq_map (del : String → Except ClientError Unit)
    (mk : String → Bool → Event) (ids : List String) :
    delete_loop del mk ids = ids.map fun x => delete_event (del x) (mk x) := by
  induction ids with
  | nil => rfl
  | cons x rest ih => simp [delete_loop, ih]

lemma mem_delete_loop (del : String → Except ClientError Unit)
    (mk : String → Bool → Event) (ids : List String) (ev : Event)
    (he : ev ∈ delete_loop del mk ids) : ∃ x ∈ ids, ∃ b, ev = mk x b := by
  rw [delete_loop_eq_map] at he
  rcases List.mem_map.mp he with ⟨x, hx, rfl⟩
  refine ⟨x, hx, ?_⟩
  cases h : del x with
  | ok u => exact ⟨true, by simp [delete_event, h]⟩
  | error err => exact ⟨false, by simp [delete_event, h]⟩

lemma process_cluster_yield (w : RedshiftWorld) (td : Int) (rt : RequiredTags)
    (c : Cluster) :
    (process_cluster w td rt c).2 =
      if (decide (c.clusterCreateTime < td) &&
          !(requiredTagsTruthy rt && !cluster_has_required_tags w c (rt.getD []))) then
        some c.clusterIdentifier
      else none := by
  unfold process_cluster
  by_cases h1 : c.clusterCreateTime < td <;>
    cases h2 : requiredTagsTruthy rt <;>
      cases h3 : cluster_has_required_tags w c (rt.getD []) <;>
        simp [h1, h2, h3]

lemma filterMap_guard {α β : Type} (p : α → Bool) (g : α → β) (l : List α) :
    (l.filterMap fun a => if p a then some (g a) else none) =
      (l.filter p).map g := by
  induction l with
  | nil => rfl
  | cons a l ih =>
      by_cases h : p a <;> simp [List.filterMap_cons, List.filter_cons, h, ih]

lemma list_clusters_ok (w : RedshiftWorld) (td : Int) (rt : RequiredTags)
    (pages : List (List Cluster)) (hp : w.describeClusters = Except.ok pages) :
    list_clusters w td rt = Except.ok
      ((pages.flatten.filter fun c =>
          decide (c.clusterCreateTime < td) &&
          !(requiredTagsTruthy rt && !cluster_has_required_tags w c (rt.getD []))).map
        fun c => c.clusterIdentifier) := by
  unfold list_clusters
  rw [hp]
  refine congrArg Except.ok ?_
  rw [show (fun cluster => (process_cluster w td rt cluster).2) =
      fun c => if (decide (c.clusterCreateTime < td) &&
          !(requiredTagsTruthy rt && !cluster_has_required_tags w c (rt.getD []))) then
        some c.clusterIdentifier
      else none from funext (process_cluster_yield w td rt)]
  exact filterMap_guard _ _ _

lemma list_snapshots_ok (w : RedshiftWorld) (td : Int)
    (pages : List (List Snapshot))
    (hp : w.describeClusterSnapshots = Except.ok pages) :
    list_snapshots w td = Except.ok
      ((pages.flatten.filter fun s => decide (s.snapshotCreateTime < td)).map
        fun s => s.snapshotIdentifier) := by
  unfold list_snapshots
  rw [hp]
  refine congrArg Except.ok ?_
  rw [show (fun snapshot : Snapshot =>
        if snapshot.snapshotCreateTime < td then some snapshot.snapshotIdentifier
        else none) =
      fun s : Snapshot => if decide (s.snapshotCreateTime < td) then
        some s.snapshotIdentifier
      else none by
    funext s
    by_cases h : s.snapshotCreateTime < td <;> simp [h]]
  exact filterMap_guard _ _ _

/-! Concrete scenarios used by individual claims. -/

/-- Tag endpoint of the C1 scenario: cluster "a" is tagged env=prod,
cluster "b" is tagged env=dev, cluster "c" carries no tags. -/
def c1Tags : String → Except ClientError (List Tag) := fun r =>
  if r = "a" then Except.ok [⟨"env", "prod"⟩]
  else if r = "b" then Except.ok [⟨"env", "dev"⟩]
  else Except.ok []

/-- The spec's tag example: three clusters created at 500, tags served by
`c1Tags`, every delete call succeeds. -/
def c1World : RedshiftWorld where
  describeClusters := Except.ok [[⟨"a", 500⟩, ⟨"b", 500⟩, ⟨"c", 500⟩]]
  describeClusterSnapshots := Except.ok []
  describeClusterSubnetGroups := Except.ok []
  describeClusterParameterGroups := Except.ok []
  listTagsForResource := c1Tags
  deleteCluster := fun _ => Except.ok ()
  deleteClusterSnapshot := fun _ => Except.ok ()
  deleteClusterSubnetGroup := fun _ => Except.ok ()
  deleteClusterParameterGroup := fun _ => Except.ok ()

/-- C1: on the spec's own example (threshold 1000, required tags
env=prod, clusters "a" tagged env=prod, "b" tagged env=dev, "c" untagged,
all created at 500) the code yields and deletes exactly the tag-matching
cluster "a" and preserves "b" and "c" — the opposite of the claim (and of
the docstrings), which say the matching cluster is preserved and the
mismatched or untagged ones are deleted. The guard
`if required_tags and not self._cluster_has_required_tags(...): continue`
skips exactly the non-matching clusters. -/
theorem c1_code_deletes_matching_preserves_mismatched :
    list_clusters c1World 1000 (some [("env", "prod")]) = Except.ok ["a"] ∧
    nuke_clusters c1World 1000 (some [("env", "prod")]) =
      Except.ok [Event.deleteCluster "a" true] := by
  constructor <;> rfl

/-- Tag endpoint of the C2 scenario: the fetch for cluster "a" raises a
`ClientError`; the fetch for cluster "b" succeeds with env=prod. -/
def c2Tags : String → Except ClientError (List Tag) := fun r =>
  if r = "b" then Except.ok [⟨"env", "prod"⟩]
  else Except.error "AccessDenied"

/-- C2 scenario: two clusters created at 500, tag fetch failing for "a",
every delete call succeeds. -/
def c2World : RedshiftWorld where
  describeClusters := Except.ok [[⟨"a", 500⟩, ⟨"b", 500⟩]]
  describeClusterSnapshots := Except.ok []
  describeClusterSubnetGroups := Except.ok []
  describeClusterParameterGroups := Except.ok []
  listTagsForResource := c2Tags
  deleteCluster := fun _ => Except.ok ()
  deleteClusterSnapshot := fun _ => Except.ok ()
  deleteClusterSubnetGroup := fun _ => Except.ok ()
  deleteClusterParameterGroup := fun _ => Except.ok ()

/-- C2: with threshold 1000 and required tags env=prod, the tag fetch for
cluster "a" (created at 500) raises `ClientError`, so
`_cluster_has_required_tags` returns `False` and the guard on line 145
skips "a": it is NOT yielded by `list_clusters` and NOT passed to delete,
contradicting the claim's fail-open-to-deletion reading (which matches
the spec and the docstrings). The loop does continue: the next cluster
"b" is still processed (and, tags matching, deleted). -/
theorem c2_tag_fetch_failure_skips_cluster :
    list_clusters c2World 1000 (some [("env", "prod")]) = Except.ok ["b"] ∧
    nuke_clusters c2World 1000 (some [("env", "prod")]) =
      Except.ok [Event.deleteCluster "b" true] := by
  constructor <;> rfl

/-- C3: a cluster whose creation timestamp is at or above the threshold
is never yielded by `list_clusters` and never passed to the delete
endpoint by `nuke_clusters`, for every value of `required_tags`. Stated
for any identifier `i` all of whose bearers in the listing are at or
above the threshold: `i` is not yielded and no delete event for `i`
appears in the trace. -/
theorem c3_new_clusters_never_deleted (w : RedshiftWorld) (td : Int)
    (rt : RequiredTags) (pages : List (List Cluster)) (ids : List String)
    (evs : List Event)
    (hp : w.describeClusters = Except.ok pages)
    (hl : list_clusters w td rt = Except.ok ids)
    (hn : nuke_clusters w td rt = Except.ok evs)
    (i : String)
    (hi : ∀ c ∈ pages.flatten, c.clusterIdentifier = i → td ≤ c.clusterCreateTime) :
    i ∉ ids ∧ ∀ b, Event.deleteCluster i b ∉ evs := by
  have hids : ids = (pages.flatten.filter fun c =>
      decide (c.clusterCreateTime < td) &&
      !(requiredTagsTruthy rt && !cluster_has_required_tags w c (rt.getD []))).map
      (fun c => c.clusterIdentifier) := by
    have hok := list_clusters_ok w td rt pages hp
    rw [hl] at hok
    exact Except.ok.inj hok
  have hnot : i ∉ ids := by
    intro hmem
    rw [hids] at hmem
    rcases List.mem_map.mp hmem with ⟨c, hc, hci⟩
    have hcin := List.mem_filter.mp hc
    have hlt : c.clusterCreateTime < td := by
      have hpred := hcin.2
      simp only [Bool.and_eq_true, decide_eq_true_eq] at hpred
      exact hpred.1
    exact absurd hlt (not_lt.mpr (hi c hcin.1 hci))
  refine ⟨hnot, ?_⟩
  intro b hmem
  have hevs : evs = delete_loop w.deleteCluster Event.deleteCluster ids := by
    unfold nuke_clusters at hn
    rw [hl] at hn
    exact (Except.ok.inj hn).symm
  rw [hevs] at hmem
  rcases mem_delete_loop _ _ _ _ hmem with ⟨x, hx, b', hb⟩
  injection hb with h1 h2
  exact hnot (h1.symm ▸ hx)

/-- C3 scenario: one cluster at the threshold boundary's wrong side
(timestamp 1500 ≥ 1000) and one old cluster. -/
def c3World : RedshiftWorld where
  describeClusters := Except.ok [[⟨"x", 1500⟩, ⟨"y", 500⟩]]
  describeClusterSnapshots := Except.ok []
  describeClusterSubnetGroups := Except.ok []
  describeClusterParameterGroups := Except.ok []
  listTagsForResource := fun _ => Except.ok []
  deleteCluster := fun _ => Except.ok ()
  deleteClusterSnapshot := fun _ => Except.ok ()
  deleteClusterSubnetGroup := fun _ => Except.ok ()
  deleteClusterParameterGroup := fun _ => Except.ok ()

/-- C3 instantiated: cluster "x" (timestamp 1500 ≥ threshold 1000) is
neither yielded nor deleted. -/
theorem c3_witness :
    "x" ∉ ["y"] ∧ ∀ b, Event.deleteCluster "x" b ∉ [Event.deleteCluster "y" true] :=
  c3_new_clusters_never_deleted c3World 1000 none [[⟨"x", 1500⟩, ⟨"y", 500⟩]]
    ["y"] [Event.deleteCluster "y" true] rfl rfl rfl "x" (by decide)

/-- C4: when `required_tags` is `None` or the empty dict (falsy), every
cluster strictly older than the threshold is yielded by `list_clusters`
and receives a delete attempt from `nuke_clusters`. -/
theorem c4_no_required_tags_deletes_old (w : RedshiftWorld) (td : Int)
    (rt : RequiredTags) (pages : List (List Cluster)) (ids : List String)
    (evs : List Event)
    (hp : w.describeClusters = Except.ok pages)
    (hrt : requiredTagsTruthy rt = false)
    (hl : list_clusters w td rt = Except.ok ids)
    (hn : nuke_clusters w td rt = Except.ok evs)
    (c : Cluster) (hc : c ∈ pages.flatten) (hts : c.clusterCreateTime < td) :
    c.clusterIdentifier ∈ ids ∧
      ∃ b, Event.deleteCluster c.clusterIdentifier b ∈ evs := by
  have hids : ids = (pages.flatten.filter fun c =>
      decide (c.clusterCreateTime < td) &&
      !(requiredTagsTruthy rt && !cluster_has_required_tags w c (rt.getD []))).map
      (fun c => c.clusterIdentifier) := by
    have hok := list_clusters_ok w td rt pages hp
    rw [hl] at hok
    exact Except.ok.inj hok
  have hmem : c.clusterIdentifier ∈ ids := by
    rw [hids]
    exact List.mem_map.mpr ⟨c, List.mem_filter.mpr ⟨hc, by simp [hrt, hts]⟩, rfl⟩
  refine ⟨hmem, ?_⟩
  have hevs : evs = ids.map fun x => delete_event (w.deleteCluster x)
      (Event.deleteCluster x) := by
    unfold nuke_clusters at hn
    rw [hl] at hn
    rw [← Except.ok.inj hn]
    exact delete_loop_eq_map _ _ _
  cases hdel : w.deleteCluster c.clusterIdentifier with
  | ok u =>
      exact ⟨true, hevs ▸ List.mem_map.mpr
        ⟨c.clusterIdentifier, hmem, by simp [delete_event, hdel]⟩⟩
  | error err =>
      exact ⟨false, hevs ▸ List.mem_map.mpr
        ⟨c.clusterIdentifier, hmem, by simp [delete_event, hdel]⟩⟩

/-- C4 scenario, the spec's end-to-end example: threshold 1000, clusters
"a" (timestamp 500) and "b" (timestamp 1500), no required tags. -/
def c4World : RedshiftWorld where
  describeClusters := Except.ok [[⟨"a", 500⟩, ⟨"b", 1500⟩]]
  describeClusterSnapshots := Except.ok []
  describeClusterSubnetGroups := Except.ok []
  describeClusterParameterGroups := Except.ok []
  listTagsForResource := fun _ => Except.ok []
  deleteCluster := fun _ => Except.ok ()
  deleteClusterSnapshot := fun _ => Except.ok ()
  deleteClusterSubnetGroup := fun _ => Except.ok ()
  deleteClusterParameterGroup := fun _ => Except.ok ()

/-- C4 instantiated on the spec's end-to-end example: with threshold 1000
and no required tags, `list_clusters` yields exactly ["a"] (the `rfl`
hypothesis instantiations force the full output) and "a" receives a
delete attempt. -/
theorem c4_witness :
    "a" ∈ ["a"] ∧ ∃ b, Event.deleteCluster "a" b ∈ [Event.deleteCluster "a" true] :=
  c4_no_required_tags_deletes_old c4World 1000 none [[⟨"a", 500⟩, ⟨"b", 1500⟩]]
    ["a"] [Event.deleteCluster "a" true] rfl rfl rfl rfl ⟨"a", 500⟩
    (by decide) (by decide)

/-- C5: per-item failure isolation in all four delete loops. Even when
the delete call for the `n`-th listed identifier of each kind raises a
`ClientError`, the trace of every kind is exactly one delete attempt per
listed identifier, in listing order — in particular every identifier
after the failing one is still attempted. -/
theorem c5_delete_failure_isolation (w : RedshiftWorld) (td : Int)
    (rt : RequiredTags) (idsC idsS idsU idsP : List String)
    (evC evS evU evP : List Event)
    (hlC : list_clusters w td rt = Except.ok idsC)
    (hnC : nuke_clusters w td rt = Except.ok evC)
    (hlS : list_snapshots w td = Except.ok idsS)
    (hnS : nuke_snapshots w td = Except.ok evS)
    (hlU : list_subnet w = Except.ok idsU)
    (hnU : nuke_subnets w = Except.ok evU)
    (hlP : list_cluster_params w = Except.ok idsP)
    (hnP : nuke_param_groups w = Except.ok evP)
    (nC nS nU nP : Nat)
    (hfC : ∃ i e, idsC[nC]? = some i ∧ w.deleteCluster i = Except.error e)
    (hfS : ∃ i e, idsS[nS]? = some i ∧ w.deleteClusterSnapshot i = Except.error e)
    (hfU : ∃ i e, idsU[nU]? = some i ∧ w.deleteClusterSubnetGroup i = Except.error e)
    (hfP : ∃ i e, idsP[nP]? = some i ∧ w.deleteClusterParameterGroup i = Except.error e) :
    evC = idsC.map (fun x => delete_event (w.deleteCluster x) (Event.deleteCluster x))
    ∧ evS = idsS.map (fun x => delete_event (w.deleteClusterSnapshot x) (Event.deleteSnapshot x))
    ∧ evU = idsU.map (fun x => delete_event (w.deleteClusterSubnetGroup x) (Event.deleteSubnet x))
    ∧ evP = idsP.map (fun x => delete_event (w.deleteClusterParameterGroup x) (Event.deleteParam x)) := by
  refine ⟨?_, ?_, ?_, ?_⟩
  · unfold nuke_clusters at hnC
    rw [hlC] at hnC
    rw [← Except.ok.inj hnC]
    exact delete_loop_eq_map _ _ _
  · unfold nuke_snapshots at hnS
    rw [hlS] at hnS
    rw [← Except.ok.inj hnS]
    exact delete_loop_eq_map _ _ _
  · unfold nuke_subnets at hnU
    rw [hlU] at hnU
    rw [← Except.ok.inj hnU]
    exact delete_loop_eq_map _ _ _
  · unfold nuke_param_groups at hnP
    rw [hlP] at hnP
    rw [← Except.ok.inj hnP]
    exact delete_loop_eq_map _ _ _

/-- C5 scenario: two resources of every kind, the first delete of each
kind failing with `ClientError`, the second succeeding. -/
def c5World : RedshiftWorld where
  describeClusters := Except.ok [[⟨"c1", 0⟩, ⟨"c2", 0⟩]]
  describeClusterSnapshots := Except.ok [[⟨"s1", 0⟩, ⟨"s2", 0⟩]]
  describeClusterSubnetGroups := Except.ok [[⟨"u1"⟩, ⟨"u2"⟩]]
  describeClusterParameterGroups := Except.ok [[⟨"p1"⟩, ⟨"p2"⟩]]
  listTagsForResource := fun _ => Except.ok []
  deleteCluster := fun i => if i = "c1" then Except.error "boom" else Except.ok ()
  deleteClusterSnapshot := fun i => if i = "s1" then Except.error "boom" else Except.ok ()
  deleteClusterSubnetGroup := fun i => if i = "u1" then Except.error "boom" else Except.ok ()
  deleteClusterParameterGroup := fun i => if i = "p1" then Except.error "boom" else Except.ok ()

/-- C5 instantiated: in `c5World` the first delete of every kind fails,
yet the trace of every kind still holds one attempt per identifier, the
second identifier included. -/
theorem c5_witness :
    [Event.deleteCluster "c1" false, Event.deleteCluster "c2" true] =
      (["c1", "c2"].map fun x => delete_event (c5World.deleteCluster x) (Event.deleteCluster x))
    ∧ [Event.deleteSnapshot "s1" false, Event.deleteSnapshot "s2" true] =
      (["s1", "s2"].map fun x => delete_event (c5World.deleteClusterSnapshot x) (Event.deleteSnapshot x))
    ∧ [Event.deleteSubnet "u1" false, Event.deleteSubnet "u2" true] =
      (["u1", "u2"].map fun x => delete_event (c5World.deleteClusterSubnetGroup x) (Event.deleteSubnet x))
    ∧ [Event.deleteParam "p1" false, Event.deleteParam "p2" true] =
      (["p1", "p2"].map fun x => delete_event (c5World.deleteClusterParameterGroup x) (Event.deleteParam x)) :=
  c5_delete_failure_isolation c5World 1000 none ["c1", "c2"] ["s1", "s2"]
    ["u1", "u2"] ["p1", "p2"]
    [Event.deleteCluster "c1" false, Event.deleteCluster "c2" true]
    [Event.deleteSnapshot "s1" false, Event.deleteSnapshot "s2" true]
    [Event.deleteSubnet "u1" false, Event.deleteSubnet "u2" true]
    [Event.deleteParam "p1" false, Event.deleteParam "p2" true]
    rfl rfl rfl rfl rfl rfl rfl rfl 0 0 0 0
    ⟨"c1", "boom", rfl, rfl⟩ ⟨"s1", "boom", rfl, rfl⟩
    ⟨"u1", "boom", rfl, rfl⟩ ⟨"p1", "boom", rfl, rfl⟩

/-- C6 counterexample scenario: the cluster pagination raises, while one
old snapshot "s" (timestamp 0 < threshold 1000) exists and its delete
would succeed. -/
def c6CexWorld : RedshiftWorld where
  describeClusters := Except.error "boom"
  describeClusterSnapshots := Except.ok [[⟨"s", 0⟩]]
  describeClusterSubnetGroups := Except.ok []
  describeClusterParameterGroups := Except.ok []
  listTagsForResource := fun _ => Except.ok []
  deleteCluster := fun _ => Except.ok ()
  deleteClusterSnapshot := fun _ => Except.ok ()
  deleteClusterSubnetGroup := fun _ => Except.ok ()
  deleteClusterParameterGroup := fun _ => Except.ok ()

/-- C6 counterexample: the claim says a listing failure aborts only the
remainder of that resource kind's handling and subsequent kinds still
run. In `c6CexWorld` the cluster listing fails; `nuke` then escapes with
that error and its trace is empty — the snapshot kind never runs, so the
old snapshot "s" is never attempted, contrary to the claim. -/
theorem c6_counterexample :
    (nuke c6CexWorld 1000 none).1 = [] ∧
    (nuke c6CexWorld 1000 none).2 = some "boom" ∧
    Event.deleteSnapshot "s" true ∉ (nuke c6CexWorld 1000 none).1 := by
  refine ⟨rfl, rfl, by decide⟩

/-- C6 (amended): per-item delete failures never escape `nuke` — when all
four listings succeed, `nuke` finishes without an exception no matter how
many individual delete calls fail; a failure of a pagination/listing
itself propagates out of `nuke` and aborts the remainder of that resource
kind's handling AND every subsequent resource kind, shown for each of the
four possible failure sites: a cluster listing failure leaves the whole
trace empty, a snapshot listing failure leaves exactly the cluster trace,
a subnet-group listing failure leaves the cluster and snapshot traces
(parameter groups never run), and a parameter-group listing failure
leaves the first three traces. -/
theorem c6_listing_failure_aborts_rest (w : RedshiftWorld) (td : Int)
    (rt : RequiredTags) :
    (∀ pc ps pu pp, w.describeClusters = Except.ok pc →
        w.describeClusterSnapshots = Except.ok ps →
        w.describeClusterSubnetGroups = Except.ok pu →
        w.describeClusterParameterGroups = Except.ok pp →
        (nuke w td rt).2 = none)
    ∧ (∀ e, w.describeClusters = Except.error e → nuke w td rt = ([], some e))
    ∧ (∀ t1 e, nuke_clusters w td rt = Except.ok t1 →
        w.describeClusterSnapshots = Except.error e →
        nuke w td rt = (t1, some e))
    ∧ (∀ t1 t2 e, nuke_clusters w td rt = Except.ok t1 →
        nuke_snapshots w td = Except.ok t2 →
        w.describeClusterSubnetGroups = Except.error e →
        nuke w td rt = (t1 ++ t2, some e))
    ∧ (∀ t1 t2 t3 e, nuke_clusters w td rt = Except.ok t1 →
        nuke_snapshots w td = Except.ok t2 →
        nuke_subnets w = Except.ok t3 →
        w.describeClusterParameterGroups = Except.error e →
        nuke w td rt = (t1 ++ t2 ++ t3, some e)) := by
  refine ⟨?_, ?_, ?_, ?_, ?_⟩
  · intro pc ps pu pp hpc hps hpu hpp
    obtain ⟨t1, hn1⟩ : ∃ t, nuke_clusters w td rt = Except.ok t := by
      unfold nuke_clusters list_clusters
      rw [hpc]
      exact ⟨_, rfl⟩
    obtain ⟨t2, hn2⟩ : ∃ t, nuke_snapshots w td = Except.ok t := by
      unfold nuke_snapshots list_snapshots
      rw [hps]
      exact ⟨_, rfl⟩
    obtain ⟨t3, hn3⟩ : ∃ t, nuke_subnets w = Except.ok t := by
      unfold nuke_subnets list_subnet
      rw [hpu]
      exact ⟨_, rfl⟩
    obtain ⟨t4, hn4⟩ : ∃ t, nuke_param_groups w = Except.ok t := by
      unfold nuke_param_groups list_cluster_params
      rw [hpp]
      exact ⟨_, rfl⟩
    simp only [nuke, hn1, hn2, hn3, hn4]
  · intro e he
    have h1 : nuke_clusters w td rt = Except.error e := by
      unfold nuke_clusters list_clusters
      rw [he]
    simp only [nuke, h1]
  · intro t1 e h1 he
    have h2 : nuke_snapshots w td = Except.error e := by
      unfold nuke_snapshots list_snapshots
      rw [he]
    simp only [nuke, h1, h2]
  · intro t1 t2 e h1 h2 he
    have h3 : nuke_subnets w = Except.error e := by
      unfold nuke_subnets list_subnet
      rw [he]
    simp only [nuke, h1, h2, h3]
  · intro t1 t2 t3 e h1 h2 h3 he
    have h4 : nuke_param_groups w = Except.error e := by
      unfold nuke_param_groups list_cluster_params
      rw [he]
    simp only [nuke, h1, h2, h3, h4]

/-- C6 witness scenario: cluster pagination fails with "boom". -/
def c6World : RedshiftWorld where
  describeClusters := Except.error "boom"
  describeClusterSnapshots := Except.ok [[⟨"s", 0⟩]]
  describeClusterSubnetGroups := Except.ok [[⟨"u"⟩]]
  describeClusterParameterGroups := Except.ok [[⟨"p"⟩]]
  listTagsForResource := fun _ => Except.ok []
  deleteCluster := fun _ => Except.ok ()
  deleteClusterSnapshot := fun _ => Except.ok ()
  deleteClusterSubnetGroup := fun _ => Except.ok ()
  deleteClusterParameterGroup := fun _ => Except.ok ()

/-- C6 witness scenario for a later failure site: clusters and snapshots
list fine, the subnet-group pagination fails with "crash", and a
parameter group "q" exists that would be deleted if its kind ran. -/
def c6bWorld : RedshiftWorld where
  describeClusters := Except.ok [[⟨"c", 0⟩]]
  describeClusterSnapshots := Except.ok [[⟨"s", 0⟩]]
  describeClusterSubnetGroups := Except.error "crash"
  describeClusterParameterGroups := Except.ok [[⟨"q"⟩]]
  listTagsForResource := fun _ => Except.ok []
  deleteCluster := fun _ => Except.ok ()
  deleteClusterSnapshot := fun _ => Except.ok ()
  deleteClusterSubnetGroup := fun _ => Except.ok ()
  deleteClusterParameterGroup := fun _ => Except.ok ()

/-- C6 (amended) instantiated: in `c6World` the cluster listing failure
escapes `nuke` with an empty trace; in `c6bWorld` the subnet-group
listing failure escapes `nuke` leaving exactly the cluster and snapshot
traces — the parameter-group kind never runs. -/
theorem c6_witness :
    nuke c6World 1000 none = ([], some "boom")
    ∧ nuke c6bWorld 1000 none =
        ([Event.deleteCluster "c" true] ++ [Event.deleteSnapshot "s" true],
          some "crash") :=
  ⟨(c6_listing_failure_aborts_rest c6World 1000 none).2.1 "boom" rfl,
    (c6_listing_failure_aborts_rest c6bWorld 1000 none).2.2.2.1
      [Event.deleteCluster "c" true] [Event.deleteSnapshot "s" true] "crash"
      rfl rfl rfl⟩

/-! Further helper lemmas: shapes of the handler results. -/

lemma delete_loop_filter_of_none (del : String → Except ClientError Unit)
    (mk : String → Bool → Event) (p : Event → Bool)
    (hmk : ∀ x b, p (mk x b) = false) (ids : List String) :
    (delete_loop del mk ids).filter p = [] := by
  rw [List.filter_eq_nil_iff]
  intro a ha
  rcases mem_delete_loop _ _ _ _ ha with ⟨x, hx, b, rfl⟩
  simp [hmk]

lemma delete_loop_all_of (del : String → Except ClientError Unit)
    (mk : String → Bool → Event) (p : Event → Bool)
    (hmk : ∀ x b, p (mk x b) = true) (ids : List String) :
    (delete_loop del mk ids).all p = true := by
  rw [List.all_eq_true]
  intro ev hev
  rcases mem_delete_loop _ _ _ _ hev with ⟨x, hx, b, rfl⟩
  exact hmk x b

lemma nuke_clusters_error_shape (w : RedshiftWorld) (td : Int)
    (rt : RequiredTags) (e : ClientError)
    (h : w.describeClusters = Except.error e) :
    nuke_clusters w td rt = Except.error e := by
  unfold nuke_clusters list_clusters
  rw [h]

lemma nuke_clusters_ok_shape (w : RedshiftWorld) (td : Int)
    (rt : RequiredTags) (pages : List (List Cluster))
    (h : w.describeClusters = Except.ok pages) :
    nuke_clusters w td rt = Except.ok (delete_loop w.deleteCluster
      Event.deleteCluster
      (pages.flatten.filterMap fun c => (process_cluster w td rt c).2)) := by
  unfold nuke_clusters list_clusters
  rw [h]

lemma nuke_snapshots_error_shape (w : RedshiftWorld) (td : Int)
    (e : ClientError) (h : w.describeClusterSnapshots = Except.error e) :
    nuke_snapshots w td = Except.error e := by
  unfold nuke_snapshots list_snapshots
  rw [h]

lemma nuke_snapshots_ok_shape (w : RedshiftWorld) (td : Int)
    (pages : List (List Snapshot))
    (h : w.describeClusterSnapshots = Except.ok pages) :
    nuke_snapshots w td = Except.ok (delete_loop w.deleteClusterSnapshot
      Event.deleteSnapshot
      (pages.flatten.filterMap fun s =>
        if s.snapshotCreateTime < td then some s.snapshotIdentifier else none)) := by
  unfold nuke_snapshots list_snapshots
  rw [h]

lemma nuke_subnets_error_shape (w : RedshiftWorld) (e : ClientError)
    (h : w.describeClusterSubnetGroups = Except.error e) :
    nuke_subnets w = Except.error e := by
  unfold nuke_subnets list_subnet
  rw [h]

lemma nuke_subnets_ok_shape (w : RedshiftWorld)
    (pages : List (List SubnetGroup))
    (h : w.describeClusterSubnetGroups = Except.ok pages) :
    nuke_subnets w = Except.ok (delete_loop w.deleteClusterSubnetGroup
      Event.deleteSubnet (pages.flatten.map fun u => u.clusterSubnetGroupName)) := by
  unfold nuke_subnets list_subnet
  rw [h]

lemma nuke_param_groups_error_shape (w : RedshiftWorld) (e : ClientError)
    (h : w.describeClusterParameterGroups = Except.error e) :
    nuke_param_groups w = Except.error e := by
  unfold nuke_param_groups list_cluster_params
  rw [h]

lemma nuke_param_groups_ok_shape (w : RedshiftWorld)
    (pages : List (List ParameterGroup))
    (h : w.describeClusterParameterGroups = Except.ok pages) :
    nuke_param_groups w = Except.ok (delete_loop w.deleteClusterParameterGroup
      Event.deleteParam (pages.flatten.map fun p => p.parameterGroupName)) := by
  unfold nuke_param_groups list_cluster_params
  rw [h]

/-- The subnet-group and parameter-group part of the `nuke` trace does
not depend on the threshold or the required tags: cluster and snapshot
events are the only trace entries those arguments can influence, and a
listing failure aborts identically for any argument values. -/
lemma nuke_subnet_param_trace_indep (w : RedshiftWorld) (td td' : Int)
    (rt rt' : RequiredTags) :
    (nuke w td rt).1.filter isSubnetOrParamEvent =
      (nuke w td' rt').1.filter isSubnetOrParamEvent := by
  have hC : ∀ ids, (delete_loop w.deleteCluster Event.deleteCluster ids).filter
      isSubnetOrParamEvent = [] :=
    delete_loop_filter_of_none _ _ _ (fun x b => rfl)
  have hS : ∀ ids, (delete_loop w.deleteClusterSnapshot Event.deleteSnapshot ids).filter
      isSubnetOrParamEvent = [] :=
    delete_loop_filter_of_none _ _ _ (fun x b => rfl)
  cases hdc : w.describeClusters with
  | error e =>
      simp only [nuke, nuke_clusters_error_shape w td rt e hdc,
        nuke_clusters_error_shape w td' rt' e hdc]
  | ok pc =>
      cases hds : w.describeClusterSnapshots with
      | error e =>
          simp only [nuke, nuke_clusters_ok_shape w td rt pc hdc,
            nuke_clusters_ok_shape w td' rt' pc hdc,
            nuke_snapshots_error_shape w td e hds,
            nuke_snapshots_error_shape w td' e hds, hC]
      | ok ps =>
          cases hdu : w.describeClusterSubnetGroups with
          | error e =>
              simp only [nuke, nuke_clusters_ok_shape w td rt pc hdc,
                nuke_clusters_ok_shape w td' rt' pc hdc,
                nuke_snapshots_ok_shape w td ps hds,
                nuke_snapshots_ok_shape w td' ps hds,
                nuke_subnets_error_shape w e hdu,
                List.filter_append, hC, hS, List.append_nil, List.nil_append]
          | ok pu =>
              cases hdp : w.describeClusterParameterGroups with
              | error e =>
                  simp only [nuke, nuke_clusters_ok_shape w td rt pc hdc,
                    nuke_clusters_ok_shape w td' rt' pc hdc,
                    nuke_snapshots_ok_shape w td ps hds,
                    nuke_snapshots_ok_shape w td' ps hds,
                    nuke_subnets_ok_shape w pu hdu,
                    nuke_param_groups_error_shape w e hdp,
                    List.filter_append, hC, hS, List.append_nil, List.nil_append]
              | ok pp =>
                  simp only [nuke, nuke_clusters_ok_shape w td rt pc hdc,
                    nuke_clusters_ok_shape w td' rt' pc hdc,
                    nuke_snapshots_ok_shape w td ps hds,
                    nuke_snapshots_ok_shape w td' ps hds,
                    nuke_subnets_ok_shape w pu hdu,
                    nuke_param_groups_ok_shape w pp hdp,
                    List.filter_append, hC, hS, List.append_nil, List.nil_append]

/-- C7: subnet groups and parameter groups are listed and deleted
unconditionally — `list_subnet` and `list_cluster_params` yield every
name in the paginated listing with no timestamp or tag test, every one of
them receives a delete attempt, and the `older_than_seconds` /
`required_tags` arguments of `nuke` have no influence on the
subnet-group/parameter-group portion of the trace. -/
theorem c7_subnets_params_unconditional (w : RedshiftWorld)
    (pagesU : List (List SubnetGroup)) (pagesP : List (List ParameterGroup))
    (td td' : Int) (rt rt' : RequiredTags)
    (hu : w.describeClusterSubnetGroups = Except.ok pagesU)
    (hp : w.describeClusterParameterGroups = Except.ok pagesP) :
    list_subnet w = Except.ok (pagesU.flatten.map fun u => u.clusterSubnetGroupName)
    ∧ list_cluster_params w = Except.ok (pagesP.flatten.map fun q => q.parameterGroupName)
    ∧ nuke_subnets w = Except.ok (delete_loop w.deleteClusterSubnetGroup
        Event.deleteSubnet (pagesU.flatten.map fun u => u.clusterSubnetGroupName))
    ∧ nuke_param_groups w = Except.ok (delete_loop w.deleteClusterParameterGroup
        Event.deleteParam (pagesP.flatten.map fun q => q.parameterGroupName))
    ∧ (nuke w td rt).1.filter isSubnetOrParamEvent =
        (nuke w td' rt').1.filter isSubnetOrParamEvent := by
  refine ⟨?_, ?_, nuke_subnets_ok_shape w pagesU hu,
    nuke_param_groups_ok_shape w pagesP hp,
    nuke_subnet_param_trace_indep w td td' rt rt'⟩
  · unfold list_subnet
    rw [hu]
  · unfold list_cluster_params
    rw [hp]

/-- C7 scenario: one subnet group and one parameter group, together with
clusters and snapshots whose handling varies with the arguments. -/
def c7World : RedshiftWorld where
  describeClusters := Except.ok [[⟨"c", 500⟩]]
  describeClusterSnapshots := Except.ok [[⟨"s", 500⟩]]
  describeClusterSubnetGroups := Except.ok [[⟨"u"⟩]]
  describeClusterParameterGroups := Except.ok [[⟨"q"⟩]]
  listTagsForResource := fun _ => Except.ok []
  deleteCluster := fun _ => Except.ok ()
  deleteClusterSnapshot := fun _ => Except.ok ()
  deleteClusterSubnetGroup := fun _ => Except.ok ()
  deleteClusterParameterGroup := fun _ => Except.ok ()

/-- C7 instantiated in `c7World`, comparing `nuke` at threshold 1000
without required tags against threshold 0 with required tags: the
subnet-group/parameter-group portion of the trace is identical. -/
theorem c7_witness :
    list_subnet c7World = Except.ok (([[⟨"u"⟩]] : List (List SubnetGroup)).flatten.map
      fun u => u.clusterSubnetGroupName)
    ∧ list_cluster_params c7World = Except.ok (([[⟨"q"⟩]] : List (List ParameterGroup)).flatten.map
      fun q => q.parameterGroupName)
    ∧ nuke_subnets c7World = Except.ok (delete_loop c7World.deleteClusterSubnetGroup
        Event.deleteSubnet (([[⟨"u"⟩]] : List (List SubnetGroup)).flatten.map
          fun u => u.clusterSubnetGroupName))
    ∧ nuke_param_groups c7World = Except.ok (delete_loop c7World.deleteClusterParameterGroup
        Event.deleteParam (([[⟨"q"⟩]] : List (List ParameterGroup)).flatten.map
          fun q => q.parameterGroupName))
    ∧ (nuke c7World 1000 none).1.filter isSubnetOrParamEvent =
        (nuke c7World 0 (some [("env", "prod")])).1.filter isSubnetOrParamEvent :=
  c7_subnets_params_unconditional c7World [[⟨"u"⟩]] [[⟨"q"⟩]] 1000 0 none
    (some [("env", "prod")]) rfl rfl

/-- C8: one call to `nuke` runs the four handlers exactly once each in
the fixed order clusters, snapshots, subnet groups, parameter groups: its
trace is the concatenation of the four handler traces in that order, and
each handler trace consists purely of events of its own kind — so every
cluster delete attempt precedes every snapshot delete attempt, which
precedes every subnet-group delete attempt, which precedes every
parameter-group delete attempt. -/
theorem c8_fixed_order (w : RedshiftWorld) (td : Int) (rt : RequiredTags)
    (t1 t2 t3 t4 : List Event)
    (h1 : nuke_clusters w td rt = Except.ok t1)
    (h2 : nuke_snapshots w td = Except.ok t2)
    (h3 : nuke_subnets w = Except.ok t3)
    (h4 : nuke_param_groups w = Except.ok t4) :
    nuke w td rt = (t1 ++ t2 ++ t3 ++ t4, none)
    ∧ t1.all isClusterEvent = true ∧ t2.all isSnapshotEvent = true
    ∧ t3.all isSubnetEvent = true ∧ t4.all isParamEvent = true := by
  refine ⟨by simp only [nuke, h1, h2, h3, h4], ?_, ?_, ?_, ?_⟩
  · cases hdc : w.describeClusters with
    | error e => rw [nuke_clusters_error_shape w td rt e hdc] at h1; exact absurd h1 (by simp)
    | ok pc =>
        rw [nuke_clusters_ok_shape w td rt pc hdc] at h1
        rw [← Except.ok.inj h1]
        exact delete_loop_all_of _ _ _ (fun x b => rfl) _
  · cases hds : w.describeClusterSnapshots with
    | error e => rw [nuke_snapshots_error_shape w td e hds] at h2; exact absurd h2 (by simp)
    | ok ps =>
        rw [nuke_snapshots_ok_shape w td ps hds] at h2
        rw [← Except.ok.inj h2]
        exact delete_loop_all_of _ _ _ (fun x b => rfl) _
  · cases hdu : w.describeClusterSubnetGroups with
    | error e => rw [nuke_subnets_error_shape w e hdu] at h3; exact absurd h3 (by simp)
    | ok pu =>
        rw [nuke_subnets_ok_shape w pu hdu] at h3
        rw [← Except.ok.inj h3]
        exact delete_loop_all_of _ _ _ (fun x b => rfl) _
  · cases hdp : w.describeClusterParameterGroups with
    | error e => rw [nuke_param_groups_error_shape w e hdp] at h4; exact absurd h4 (by simp)
    | ok pp =>
        rw [nuke_param_groups_ok_shape w pp hdp] at h4
        rw [← Except.ok.inj h4]
        exact delete_loop_all_of _ _ _ (fun x b => rfl) _

/-- C8 scenario: one old resource of every kind, all deletes succeed. -/
def c8World : RedshiftWorld where
  describeClusters := Except.ok [[⟨"c", 0⟩]]
  describeClusterSnapshots := Except.ok [[⟨"s", 0⟩]]
  describeClusterSubnetGroups := Except.ok [[⟨"u"⟩]]
  describeClusterParameterGroups := Except.ok [[⟨"q"⟩]]
  listTagsForResource := fun _ => Except.ok []
  deleteCluster := fun _ => Except.ok ()
  deleteClusterSnapshot := fun _ => Except.ok ()
  deleteClusterSubnetGroup := fun _ => Except.ok ()
  deleteClusterParameterGroup := fun _ => Except.ok ()

/-- C8 instantiated: the `nuke` trace in `c8World` is the cluster event,
then the snapshot event, then the subnet-group event, then the
parameter-group event. -/
theorem c8_witness :
    nuke c8World 1000 none =
      ([Event.deleteCluster "c" true] ++ [Event.deleteSnapshot "s" true] ++
        [Event.deleteSubnet "u" true] ++ [Event.deleteParam "q" true], none)
    ∧ [Event.deleteCluster "c" true].all isClusterEvent = true
    ∧ [Event.deleteSnapshot "s" true].all isSnapshotEvent = true
    ∧ [Event.deleteSubnet "u" true].all isSubnetEvent = true
    ∧ [Event.deleteParam "q" true].all isParamEvent = true :=
  c8_fixed_order c8World 1000 none [Event.deleteCluster "c" true]
    [Event.deleteSnapshot "s" true] [Event.deleteSubnet "u" true]
    [Event.deleteParam "q" true] rfl rfl rfl rfl

/-- C9: when `required_tags` is `None` or the empty dict, driving the
`list_clusters` generator makes no `list_tags_for_resource` call at all
(the `and` in the guard short-circuits before
`_cluster_has_required_tags` is ever invoked), and the yielded
identifiers are exactly those of the clusters whose creation timestamp is
strictly below the threshold — the output depends only on the timestamp
comparison. -/
theorem c9_no_tag_calls_without_required_tags (w : RedshiftWorld) (td : Int)
    (rt : RequiredTags) (pages : List (List Cluster))
    (hp : w.describeClusters = Except.ok pages)
    (hrt : requiredTagsTruthy rt = false) :
    list_clusters_tag_calls w td rt = []
    ∧ list_clusters w td rt = Except.ok
        ((pages.flatten.filter fun c => decide (c.clusterCreateTime < td)).map
          fun c => c.clusterIdentifier) := by
  constructor
  · unfold list_clusters_tag_calls
    rw [hp]
    have hone : (fun cluster => (process_cluster w td rt cluster).1) =
        fun _ : Cluster => ([] : List String) := by
      funext c
      unfold process_cluster
      rw [hrt]
      by_cases h1 : c.clusterCreateTime < td <;> simp [h1]
    rw [hone]
    show (pages.flatten.flatMap fun _ : Cluster => ([] : List String)) = []
    generalize pages.flatten = l
    induction l with
    | nil => rfl
    | cons c l ih => simp [List.flatMap_cons, ih]
  · rw [list_clusters_ok w td rt pages hp]
    have hpred : (fun c : Cluster => decide (c.clusterCreateTime < td) &&
        !(requiredTagsTruthy rt && !cluster_has_required_tags w c (rt.getD []))) =
        fun c : Cluster => decide (c.clusterCreateTime < td) := by
      funext c
      rw [hrt]
      simp
    rw [hpred]

/-- C9 scenario: two clusters either side of the threshold and a tag
endpoint that would answer if it were called. -/
def c9World : RedshiftWorld where
  describeClusters := Except.ok [[⟨"a", 500⟩, ⟨"b", 1500⟩]]
  describeClusterSnapshots := Except.ok []
  describeClusterSubnetGroups := Except.ok []
  describeClusterParameterGroups := Except.ok []
  listTagsForResource := fun _ => Except.ok [⟨"env", "prod"⟩]
  deleteCluster := fun _ => Except.ok ()
  deleteClusterSnapshot := fun _ => Except.ok ()
  deleteClusterSubnetGroup := fun _ => Except.ok ()
  deleteClusterParameterGroup := fun _ => Except.ok ()

/-- C9 instantiated with the empty required-tags dict: no tag call is
made and the listing is decided by the timestamps alone. -/
theorem c9_witness :
    list_clusters_tag_calls c9World 1000 (some []) = []
    ∧ list_clusters c9World 1000 (some []) = Except.ok
        ((([[⟨"a", 500⟩, ⟨"b", 1500⟩]] : List (List Cluster)).flatten.filter
            fun c => decide (c.clusterCreateTime < 1000)).map
          fun c => c.clusterIdentifier) :=
  c9_no_tag_calls_without_required_tags c9World 1000 (some [])
    [[⟨"a", 500⟩, ⟨"b", 1500⟩]] rfl rfl

/-- C10: each of the four listings yields exactly the in-order
subsequence of the flattened pages that satisfies its predicate (pages in
order, items in page order, no duplication, no reordering — this is what
equality with `filter` followed by `map` expresses; for subnet groups and
parameter groups the predicate is trivially true, so the listing is the
plain in-order `map` of every name), and the corresponding nuke operation
issues exactly one delete attempt per yielded identifier, in that same
order. -/
theorem c10_exact_filtered_subsequence (w : RedshiftWorld) (td : Int)
    (rt : RequiredTags) (pagesC : List (List Cluster))
    (pagesS : List (List Snapshot)) (pagesU : List (List SubnetGroup))
    (pagesP : List (List ParameterGroup))
    (idsC idsS idsU idsP : List String)
    (evC evS evU evP : List Event)
    (hc : w.describeClusters = Except.ok pagesC)
    (hs : w.describeClusterSnapshots = Except.ok pagesS)
    (hu : w.describeClusterSubnetGroups = Except.ok pagesU)
    (hq : w.describeClusterParameterGroups = Except.ok pagesP)
    (hlc : list_clusters w td rt = Except.ok idsC)
    (hls : list_snapshots w td = Except.ok idsS)
    (hlu : list_subnet w = Except.ok idsU)
    (hlq : list_cluster_params w = Except.ok idsP)
    (hnc : nuke_clusters w td rt = Except.ok evC)
    (hns : nuke_snapshots w td = Except.ok evS)
    (hnu : nuke_subnets w = Except.ok evU)
    (hnq : nuke_param_groups w = Except.ok evP) :
    idsC = (pagesC.flatten.filter fun c =>
        decide (c.clusterCreateTime < td) &&
        !(requiredTagsTruthy rt && !cluster_has_required_tags w c (rt.getD []))).map
        (fun c => c.clusterIdentifier)
    ∧ idsS = (pagesS.flatten.filter fun s => decide (s.snapshotCreateTime < td)).map
        (fun s => s.snapshotIdentifier)
    ∧ idsU = pagesU.flatten.map (fun u => u.clusterSubnetGroupName)
    ∧ idsP = pagesP.flatten.map (fun q => q.parameterGroupName)
    ∧ evC = idsC.map (fun x => delete_event (w.deleteCluster x) (Event.deleteCluster x))
    ∧ evS = idsS.map (fun x => delete_event (w.deleteClusterSnapshot x)
        (Event.deleteSnapshot x))
    ∧ evU = idsU.map (fun x => delete_event (w.deleteClusterSubnetGroup x)
        (Event.deleteSubnet x))
    ∧ evP = idsP.map (fun x => delete_event (w.deleteClusterParameterGroup x)
        (Event.deleteParam x)) := by
  refine ⟨?_, ?_, ?_, ?_, ?_, ?_, ?_, ?_⟩
  · have hok := list_clusters_ok w td rt pagesC hc
    rw [hlc] at hok
    exact Except.ok.inj hok
  · have hok := list_snapshots_ok w td pagesS hs
    rw [hls] at hok
    exact Except.ok.inj hok
  · have hok : list_subnet w = Except.ok
        (pagesU.flatten.map fun u => u.clusterSubnetGroupName) := by
      unfold list_subnet
      rw [hu]
    rw [hlu] at hok
    exact Except.ok.inj hok
  · have hok : list_cluster_params w = Except.ok
        (pagesP.flatten.map fun q => q.parameterGroupName) := by
      unfold list_cluster_params
      rw [hq]
    rw [hlq] at hok
    exact Except.ok.inj hok
  · unfold nuke_clusters at hnc
    rw [hlc] at hnc
    rw [← Except.ok.inj hnc]
    exact delete_loop_eq_map _ _ _
  · unfold nuke_snapshots at hns
    rw [hls] at hns
    rw [← Except.ok.inj hns]
    exact delete_loop_eq_map _ _ _
  · unfold nuke_subnets at hnu
    rw [hlu] at hnu
    rw [← Except.ok.inj hnu]
    exact delete_loop_eq_map _ _ _
  · unfold nuke_param_groups at hnq
    rw [hlq] at hnq
    rw [← Except.ok.inj hnq]
    exact delete_loop_eq_map _ _ _

/-- C10 scenario: clusters, snapshots and subnet groups spread over two
pages each, some clusters/snapshots above the threshold, one parameter
group, and a failing delete for cluster "k3". -/
def c10World : RedshiftWorld where
  describeClusters := Except.ok [[⟨"k1", 500⟩], [⟨"k2", 2000⟩, ⟨"k3", 100⟩]]
  describeClusterSnapshots := Except.ok [[⟨"s1", 50⟩], [⟨"s2", 5000⟩]]
  describeClusterSubnetGroups := Except.ok [[⟨"u1"⟩], [⟨"u2"⟩]]
  describeClusterParameterGroups := Except.ok [[⟨"q1"⟩]]
  listTagsForResource := fun _ => Except.ok []
  deleteCluster := fun i => if i = "k3" then Except.error "gone" else Except.ok ()
  deleteClusterSnapshot := fun _ => Except.ok ()
  deleteClusterSubnetGroup := fun _ => Except.ok ()
  deleteClusterParameterGroup := fun _ => Except.ok ()

/-- C10 instantiated in `c10World` at threshold 1000 with no required
tags: every listing keeps page and item order ("k1" then "k3", skipping
"k2"; "s1", skipping "s2"; "u1" then "u2" across pages; "q1") and each
yielded identifier gets exactly one delete attempt in the same order. -/
theorem c10_witness :
    ["k1", "k3"] =
      (([[⟨"k1", 500⟩], [⟨"k2", 2000⟩, ⟨"k3", 100⟩]] :
          List (List Cluster)).flatten.filter
        (fun c => decide (c.clusterCreateTime < 1000) &&
          !(requiredTagsTruthy none &&
            !cluster_has_required_tags c10World c (Option.getD none [])))).map
        (fun c => c.clusterIdentifier)
    ∧ ["s1"] =
      (([[⟨"s1", 50⟩], [⟨"s2", 5000⟩]] :
          List (List Snapshot)).flatten.filter
        (fun s => decide (s.snapshotCreateTime < 1000))).map
        (fun s => s.snapshotIdentifier)
    ∧ ["u1", "u2"] =
      ([[⟨"u1"⟩], [⟨"u2"⟩]] : List (List SubnetGroup)).flatten.map
        (fun u => u.clusterSubnetGroupName)
    ∧ ["q1"] =
      ([[⟨"q1"⟩]] : List (List ParameterGroup)).flatten.map
        (fun q => q.parameterGroupName)
    ∧ [Event.deleteCluster "k1" true, Event.deleteCluster "k3" false] =
        (["k1", "k3"].map fun x => delete_event (c10World.deleteCluster x)
          (Event.deleteCluster x))
    ∧ [Event.deleteSnapshot "s1" true] =
        (["s1"].map fun x => delete_event (c10World.deleteClusterSnapshot x)
          (Event.deleteSnapshot x))
    ∧ [Event.deleteSubnet "u1" true, Event.deleteSubnet "u2" true] =
        (["u1", "u2"].map fun x => delete_event (c10World.deleteClusterSubnetGroup x)
          (Event.deleteSubnet x))
    ∧ [Event.deleteParam "q1" true] =
        (["q1"].map fun x => delete_event (c10World.deleteClusterParameterGroup x)
          (Event.deleteParam x)) :=
  c10_exact_filtered_subsequence c10World 1000 none
    [[⟨"k1", 500⟩], [⟨"k2", 2000⟩, ⟨"k3", 100⟩]] [[⟨"s1", 50⟩], [⟨"s2", 5000⟩]]
    [[⟨"u1"⟩], [⟨"u2"⟩]] [[⟨"q1"⟩]]
    ["k1", "k3"] ["s1"] ["u1", "u2"] ["q1"]
    [Event.deleteCluster "k1" true, Event.deleteCluster "k3" false]
    [Event.deleteSnapshot "s1" true]
    [Event.deleteSubnet "u1" true, Event.deleteSubnet "u2" true]
    [Event.deleteParam "q1" true]
    rfl rfl rfl rfl rfl rfl rfl rfl rfl rfl rfl rfl

end NukeRedshift
